import Mathlib

/-!
Verification development for the KYC document-extraction component
(`KycVerifier`).  The definitions below are a shallow embedding of the
TypeScript/JSX source: JavaScript strings are `List Char`, JS values that the
session can hold are modelled by an explicit `Json` type (JS `null` is
`Json.null`), and the React `useState` cell group is a `Session` record.
Event handlers become pure state-transformers; the single outbound network
call of a verification attempt is reported as a request count so that
"no network call was dispatched" is expressible.
-/

namespace Kyc

/-- Left brace character, kept as a named constant. -/
def leftBrace : Char := Char.ofNat 123

/-- Right brace character, kept as a named constant. -/
def rightBrace : Char := Char.ofNat 125

/-- An exact rational in lowest terms, as numerator and positive
denominator.  `JSON.parse` yields IEEE doubles; every number the claims
exercise is exactly representable, so the exact value is the faithful
abstraction here. -/
structure JNum where
  num : Int
  den : Nat
deriving DecidableEq

/-- Build a `JNum` in lowest terms from a numerator and a denominator. -/
def normNum (n : Int) (d : Nat) : JNum :=
  let g := n.natAbs.gcd d
  if g = 0 then { num := 0, den := 1 }
  else { num := n / (g : Int), den := d / g }

/-- A `JNum` from an integer. -/
def intNum (n : Int) : JNum := { num := n, den := 1 }

/-- JSON values as produced by JavaScript's `JSON.parse`. -/
inductive Json where
  | null : Json
  | bool : Bool → Json
  | num : JNum → Json
  | str : List Char → Json
  | arr : List Json → Json
  | obj : List (List Char × Json) → Json


/-- Whitespace accepted by the JSON grammar (`JSON.parse`). -/
def isJsonWs (c : Char) : Bool :=
  c = ' ' || c = '\t' || c = '\n' || c = '\r'

/-- Drop leading JSON whitespace. -/
def skipJsonWs (s : List Char) : List Char :=
  s.dropWhile isJsonWs

/-- Whitespace removed by JavaScript's `String.prototype.trim` (WhiteSpace
plus LineTerminator code points). -/
def isJsWs (c : Char) : Bool :=
  c.toNat = 9 || c.toNat = 10 || c.toNat = 11 || c.toNat = 12 ||
  c.toNat = 13 || c.toNat = 32 || c.toNat = 160 || c.toNat = 5760 ||
  (8192 ≤ c.toNat && c.toNat ≤ 8202) || c.toNat = 8232 || c.toNat = 8233 ||
  c.toNat = 8239 || c.toNat = 8287 || c.toNat = 12288 || c.toNat = 65279

/-- Value of a list of decimal digit characters. -/
def digitsVal (ds : List Char) : Nat :=
  ds.foldl (fun acc c => acc * 10 + (c.toNat - 48)) 0

/-- Value of a hexadecimal digit character, if it is one. -/
def hexVal (c : Char) : Option Nat :=
  if '0' ≤ c ∧ c ≤ '9' then some (c.toNat - 48)
  else if 'a' ≤ c ∧ c ≤ 'f' then some (c.toNat - 87)
  else if 'A' ≤ c ∧ c ≤ 'F' then some (c.toNat - 55)
  else none

/-- The character denoted by a single-character JSON string escape. -/
def escChar (c : Char) : Option Char :=
  if c = '"' then some '"'
  else if c = '\\' then some '\\'
  else if c = '/' then some '/'
  else if c = 'b' then some (Char.ofNat 8)
  else if c = 'f' then some (Char.ofNat 12)
  else if c = 'n' then some '\n'
  else if c = 'r' then some '\r'
  else if c = 't' then some '\t'
  else none

/-- Body of a JSON string literal, after the opening quote: returns the
decoded characters and the remaining input after the closing quote.
Unescaped control characters and bad escapes are rejected, as in
`JSON.parse`. -/
def parseStrBody : List Char → Option (List Char × List Char)
  | [] => none
  | '"' :: r => some ([], r)
  | '\\' :: 'u' :: h1 :: h2 :: h3 :: h4 :: r =>
    match hexVal h1, hexVal h2, hexVal h3, hexVal h4 with
    | some a, some b, some c, some d =>
      (parseStrBody r).map (fun p => (Char.ofNat (a * 4096 + b * 256 + c * 16 + d) :: p.1, p.2))
    | _, _, _, _ => none
  | '\\' :: e :: r =>
    match escChar e with
    | some c => (parseStrBody r).map (fun p => (c :: p.1, p.2))
    | none => none
  | c :: r =>
    if c.toNat < 32 then none
    else (parseStrBody r).map (fun p => (c :: p.1, p.2))

/-- Fractional part of a JSON number: a dot followed by at least one digit,
or nothing. -/
def parseFrac : List Char → Option (List Char × List Char)
  | '.' :: r =>
    let ds := r.takeWhile Char.isDigit
    if ds = [] then none else some (ds, r.dropWhile Char.isDigit)
  | s => some ([], s)

/-- Exponent part of a JSON number, or 0 when absent. -/
def parseExp : List Char → Option (Int × List Char)
  | [] => some (0, [])
  | c :: r =>
    if c = 'e' ∨ c = 'E' then
      let (esign, r1) : Int × List Char :=
        match r with
        | '+' :: rr => (1, rr)
        | '-' :: rr => (-1, rr)
        | _ => (1, r)
      let ds := r1.takeWhile Char.isDigit
      if ds = [] then none
      else some (esign * (digitsVal ds : Int), r1.dropWhile Char.isDigit)
    else some (0, c :: r)

/-- A JSON number token: optional minus, integer part with no superfluous
leading zero, optional fraction, optional exponent.  The denoted value is
`sign * (intPart.fracPart) * 10 ^ e`, assembled as an exact fraction. -/
def parseNumber (s : List Char) : Option (Json × List Char) :=
  let (sign, s1) : Int × List Char :=
    match s with
    | '-' :: r => (-1, r)
    | _ => (1, s)
  let intDs := s1.takeWhile Char.isDigit
  let s2 := s1.dropWhile Char.isDigit
  if intDs = [] then none
  else if 1 < intDs.length ∧ intDs.head? = some '0' then none
  else
    match parseFrac s2 with
    | none => none
    | some (fracDs, s3) =>
      match parseExp s3 with
      | none => none
      | some (e, s4) =>
        let base : Int := sign * ((digitsVal intDs * 10 ^ fracDs.length + digitsVal fracDs : Nat) : Int)
        let v :=
          if 0 ≤ e then normNum (base * 10 ^ e.toNat) (10 ^ fracDs.length)
          else normNum base (10 ^ fracDs.length * 10 ^ (-e).toNat)
        some (Json.num v, s4)

mutual

/-- One JSON value at the head of the input (whitespace already skipped);
returns the value and the remaining input. -/
def parseValue : Nat → List Char → Option (Json × List Char)
  | 0, _ => none
  | fuel + 1, s =>
    match s with
    | [] => none
    | 't' :: 'r' :: 'u' :: 'e' :: r => some (Json.bool true, r)
    | 'f' :: 'a' :: 'l' :: 's' :: 'e' :: r => some (Json.bool false, r)
    | 'n' :: 'u' :: 'l' :: 'l' :: r => some (Json.null, r)
    | '"' :: r => (parseStrBody r).map (fun p => (Json.str p.1, p.2))
    | '[' :: r => parseArrRest fuel (skipJsonWs r)
    | c :: r =>
      if c = leftBrace then parseObjRest fuel (skipJsonWs r)
      else parseNumber (c :: r)

/-- Object body after the opening brace (whitespace skipped). -/
def parseObjRest : Nat → List Char → Option (Json × List Char)
  | 0, _ => none
  | fuel + 1, s =>
    match s with
    | [] => none
    | c :: r =>
      if c = rightBrace then some (Json.obj [], r)
      else
        match parseMembers fuel (c :: r) with
        | some (ms, rest) => some (Json.obj ms, rest)
        | none => none

/-- One or more `"key": value` members separated by commas, up to and
including the closing brace. -/
def parseMembers : Nat → List Char → Option (List (List Char × Json) × List Char)
  | 0, _ => none
  | fuel + 1, s =>
    match s with
    | '"' :: r =>
      match parseStrBody r with
      | none => none
      | some (key, r1) =>
        match skipJsonWs r1 with
        | ':' :: r2 =>
          match parseValue fuel (skipJsonWs r2) with
          | none => none
          | some (v, r3) =>
            match skipJsonWs r3 with
            | ',' :: r4 =>
              match parseMembers fuel (skipJsonWs r4) with
              | some (ms, r5) => some ((key, v) :: ms, r5)
              | none => none
            | c :: r4 =>
              if c = rightBrace then some ([(key, v)], r4) else none
            | [] => none
        | _ => none
    | _ => none

/-- Array body after the opening bracket (whitespace skipped). -/
def parseArrRest : Nat → List Char → Option (Json × List Char)
  | 0, _ => none
  | fuel + 1, s =>
    match s with
    | ']' :: r => some (Json.arr [], r)
    | s =>
      match parseElems fuel s with
      | some (vs, rest) => some (Json.arr vs, rest)
      | none => none

/-- One or more array elements separated by commas, up to and including the
closing bracket. -/
def parseElems : Nat → List Char → Option (List Json × List Char)
  | 0, _ => none
  | fuel + 1, s =>
    match parseValue fuel s with
    | none => none
    | some (v, r) =>
      match skipJsonWs r with
      | ',' :: r2 => (parseElems fuel (skipJsonWs r2)).map (fun p => (v :: p.1, p.2))
      | ']' :: r2 => some ([v], r2)
      | _ => none

end

/-- JavaScript `JSON.parse` on a character list: parse exactly one value
surrounded only by whitespace; `none` models the thrown `SyntaxError`.
The fuel bounds the recursion depth of the five mutual functions, not the
number of steps: along any call path at most three of them are entered per
input character consumed (a `[` passes through `parseValue`, `parseArrRest`
and `parseElems`; every other transition is cheaper), plus the outermost
`parseValue`.  `3 * length + 4` therefore strictly exceeds the depth any
input can demand, so the fuel never runs out and the parser agrees with
`JSON.parse` on arbitrarily nested values. -/
def parseJsonText (s : List Char) : Option Json :=
  let t := skipJsonWs s
  match parseValue (3 * t.length + 4) t with
  | some (v, rest) => if skipJsonWs rest = [] then some v else none
  | none => none

/-- The global replace `text.replace(/```json/g, '')` from
`handleVerifyClick`: scan left to right; at each position, if the next
seven characters are the opening fence marker (three backticks then
`json`), delete them and continue after them, otherwise keep one character
and move on — exactly the non-overlapping global regex replace. -/
def stripFJ : List Char → List Char
  | '\u0060' :: '\u0060' :: '\u0060' :: 'j' :: 's' :: 'o' :: 'n' :: rest => stripFJ rest
  | c :: rest => c :: stripFJ rest
  | [] => []

/-- The global replace `.replace(/```/g, '')`: delete each non-overlapping
occurrence of three backticks, scanning left to right. -/
def stripTicks : List Char → List Char
  | '\u0060' :: '\u0060' :: '\u0060' :: rest => stripTicks rest
  | c :: rest => c :: stripTicks rest
  | [] => []

/-- JavaScript `String.prototype.trim`: drop whitespace from both ends. -/
def jsTrim (s : List Char) : List Char :=
  ((s.dropWhile isJsWs).reverse.dropWhile isJsWs).reverse

/-- The fence-stripping line of `handleVerifyClick`:
`text.replace(/```json/g, '').replace(/```/g, '').trim()`. -/
def stripFences (s : List Char) : List Char :=
  jsTrim (stripTicks (stripFJ s))

/-- The whole response-parsing step of `handleVerifyClick`: fence stripping
followed by `JSON.parse`; `none` models the exception caught by the
surrounding `try`. -/
def parsePipeline (text : List Char) : Option Json :=
  parseJsonText (stripFences text)

/-- A JavaScript `File`: its binary content (a byte list), its name, and
its MIME type (`file.type`). -/
structure JsFile where
  bytes : List Nat
  fname : List Char
  mime : List Char

/-- The `useState` cells of the `KycVerifier` component.  `extractedData`
is any JavaScript value `setExtractedData` may receive, so it is a `Json`
with `Json.null` as the initial/cleared state; `error` is either `null` or
a string. -/
structure Session where
  image : Option JsFile
  extractedData : Json
  error : Option (List Char)
  loading : Bool
  useWebcam : Bool

/-- The initial state of the component: `useState(null)` / `useState(false)`
for every cell. -/
def initialSession : Session :=
  { image := none, extractedData := Json.null, error := none,
    loading := false, useWebcam := false }

/-- Message set by `handleVerifyClick` when no image is selected. -/
def noImageMsg : List Char :=
  "Por favor, selecciona una imagen primero.".data

/-- Generic message set by the `catch` block of `handleVerifyClick`. -/
def genericErrorMsg : List Char :=
  ("Ocurrió un error al procesar la imagen. " ++
   "Asegúrate de que la imagen sea clara y que la API key sea correcta.").data

/-- The handler `handleImageChange`: take `e.target.files[0]`; when a file
is present, store it and reset the previous data and error. -/
def handleImageChange (files : List JsFile) (s : Session) : Session :=
  match files.head? with
  | some f =>
    { s with image := some f, extractedData := Json.null, error := none }
  | none => s

/-- The handler `captureImage`: when the webcam screenshot succeeds, its
data-URL is fetched back into a blob and wrapped as a JPEG `File`; the
handler stores that file and leaves webcam mode.  (It sets nothing else.) -/
def captureImage (screenshotBytes : Option (List Nat)) (s : Session) : Session :=
  match screenshotBytes with
  | some bs =>
    { s with
      image := some { bytes := bs, fname := "webcam-capture.jpg".data,
                      mime := "image/jpeg".data },
      useWebcam := false }
  | none => s

/-- Outcome of the awaited remote call
`model.generateContent([prompt, imagePart])` … `response.text()`: either the
raw completion text, or a rejection (network/auth/remote failure). -/
inductive RemoteOutcome where
  | ok : List Char → RemoteOutcome
  | failure : RemoteOutcome

/-- The handler `handleVerifyClick`, as a function of the session state and
of the remote call's outcome.  The returned `Nat` counts the network
requests dispatched during the call (0 or 1).  Mirrors the source: guard on
a missing image; `setLoading(true); setError(null); setExtractedData(null)`;
dispatch; fence-strip and `JSON.parse` the completion; `catch` sets the
generic error; `finally` clears `loading`. -/
def handleVerifyClick (outcome : RemoteOutcome) (s : Session) : Session × Nat :=
  match s.image with
  | none => ({ s with error := some noImageMsg }, 0)
  | some _ =>
    let s1 := { s with loading := true, error := none, extractedData := Json.null }
    match outcome with
    | RemoteOutcome.failure =>
      ({ s1 with error := some genericErrorMsg, loading := false }, 1)
    | RemoteOutcome.ok text =>
      match parsePipeline text with
      | none => ({ s1 with error := some genericErrorMsg, loading := false }, 1)
      | some v => ({ s1 with extractedData := v, loading := false }, 1)

/-- The `disabled` attribute of the verify button:
`disabled={!image || loading}`. -/
def verifyButtonDisabled (s : Session) : Bool :=
  s.image.isNone || s.loading

/-- A user click on the verify button.  A disabled HTML button fires no
`onClick`, so `handleVerifyClick` runs only when the button is enabled. -/
def clickVerify (outcome : RemoteOutcome) (s : Session) : Session × Nat :=
  if verifyButtonDisabled s then (s, 0) else handleVerifyClick outcome s

/-- JavaScript truthiness of a JSON value (the values relevant here:
`null`, `false`, `0`, and the empty string are falsy). -/
def jsTruthy : Json → Bool
  | Json.null => false
  | Json.bool b => b
  | Json.num q => decide (q.num ≠ 0)
  | Json.str s => decide (s ≠ [])
  | Json.arr _ => true
  | Json.obj _ => true

/-- Last binding of a key in an object's field list: JavaScript property
access observes the last assignment when `JSON.parse` met a duplicate key. -/
def lookupLast (k : List Char) : List (List Char × Json) → Option Json
  | [] => none
  | (k', v) :: rest =>
    match lookupLast k rest with
    | some r => some r
    | none => if k' = k then some v else none

/-- JavaScript property access `d.k` as used on the parsed data: a defined
property of an object, `undefined` (`none`) otherwise. -/
def jsGet (d : Json) (k : List Char) : Option Json :=
  match d with
  | Json.obj fields => lookupLast k fields
  | _ => none

/-- Decimal digits of a natural number, via explicit fuel so that the
definition is structurally recursive. -/
def natCharsAux : Nat → Nat → List Char
  | 0, _ => []
  | fuel + 1, n => if n = 0 then [] else natCharsAux fuel (n / 10) ++ [Char.ofNat (48 + n % 10)]

/-- Decimal rendering of a natural number. -/
def natChars (n : Nat) : List Char :=
  if n = 0 then ['0'] else natCharsAux (n + 1) n

/-- Decimal rendering of an integer. -/
def intChars (i : Int) : List Char :=
  if i < 0 then '-' :: natChars i.natAbs else natChars i.natAbs

/-- Text produced when React renders a primitive JSON value.  Strings
render verbatim and integers in decimal, exactly as React does; booleans
and `null` render as nothing, as React elides them.  A non-integer number
is abstracted as an explicit fraction marker where React would show a
decimal expansion of the double — no field of either document schema holds
a non-integer, and no theorem's conclusion reaches that branch. -/
def jsDisplay : Json → List Char
  | Json.str s => s
  | Json.num q => if q.den = 1 then intChars q.num else intChars q.num ++ '/' :: natChars q.den
  | Json.bool _ => []
  | Json.null => []
  | Json.arr _ => []
  | Json.obj _ => []

/-- One result row `{extractedData.key || sentinel}`: the field's own text
when the field is truthy, the not-found sentinel otherwise. -/
def renderField (d : Json) (key sentinel : List Char) : List Char :=
  match jsGet d key with
  | some v => if jsTruthy v then jsDisplay v else sentinel
  | none => sentinel

/-- The four result rows of the detailed variant (`part_000`). -/
def renderNombre (d : Json) : List Char :=
  renderField d "nombre".data "No encontrado".data

/-- Result row for `apellido` in the detailed variant. -/
def renderApellido (d : Json) : List Char :=
  renderField d "apellido".data "No encontrado".data

/-- Result row for `nacionalidad` (both variants render it the same way). -/
def renderNacionalidad (d : Json) : List Char :=
  renderField d "nacionalidad".data "No encontrada".data

/-- Result row for `fechaNacimiento` in the detailed variant. -/
def renderFechaNacimiento (d : Json) : List Char :=
  renderField d "fechaNacimiento".data "No encontrada".data

/-- Result row for `edad` in the nationality+age variant
(`KycVerifier.jsx`). -/
def renderEdad (d : Json) : List Char :=
  renderField d "edad".data "No encontrada".data

/-- Whether a JSON value is an object. -/
def isObj : Json → Bool
  | Json.obj _ => true
  | _ => false

/-- The base64 alphabet, in index order. -/
def b64Alphabet : List Char :=
  "ABCDEFGHIJKLMNOPQRSTUVWXYZabcdefghijklmnopqrstuvwxyz0123456789+/".data

/-- The base64 character for a six-bit value. -/
def encB64Char (n : Nat) : Char :=
  b64Alphabet.getD n 'A'

/-- Index of a character in a list, if present. -/
def b64Index (c : Char) : List Char → Option Nat
  | [] => none
  | x :: xs => if x = c then some 0 else (b64Index c xs).map (· + 1)

/-- The six-bit value of a base64 character, if it is one. -/
def decB64Char (c : Char) : Option Nat :=
  b64Index c b64Alphabet

/-- RFC 4648 base64 of a byte list, with padding — the encoding
`FileReader.readAsDataURL` embeds after the `;base64,` marker.  Each group
of three bytes becomes four sextet characters; a final group of one or two
bytes is padded with `=`. -/
def base64Encode : List Nat → List Char
  | [] => []
  | [a] =>
    [encB64Char (a / 4), encB64Char ((a % 4) * 16), '=', '=']
  | [a, b] =>
    [encB64Char (a / 4), encB64Char ((a % 4) * 16 + b / 16), encB64Char ((b % 16) * 4), '=']
  | a :: b :: c :: rest =>
    encB64Char (a / 4) :: encB64Char ((a % 4) * 16 + b / 16) ::
    encB64Char ((b % 16) * 4 + c / 64) :: encB64Char (c % 64) :: base64Encode rest

/-- Standard base64 decoding of a padded base64 text back to bytes (the
"would-be decoder" of the round-trip law; ill-formed input decodes to an
empty remainder). -/
def base64Decode : List Char → List Nat
  | c1 :: c2 :: c3 :: c4 :: rest =>
    (match decB64Char c1, decB64Char c2 with
     | some s1, some s2 =>
       if c3 = '=' then [s1 * 4 + s2 / 16]
       else
         match decB64Char c3 with
         | some s3 =>
           if c4 = '=' then [s1 * 4 + s2 / 16, (s2 % 16) * 16 + s3 / 4]
           else
             match decB64Char c4 with
             | some s4 =>
               (s1 * 4 + s2 / 16) :: ((s2 % 16) * 16 + s3 / 4) ::
               ((s3 % 4) * 64 + s4) :: base64Decode rest
             | none => []
         | none => []
     | _, _ => [])
  | _ => []

/-- JavaScript `String.prototype.split` with a single-character separator. -/
def jsSplitChar (sep : Char) : List Char → List (List Char)
  | [] => [[]]
  | c :: rest =>
    if c = sep then [] :: jsSplitChar sep rest
    else
      match jsSplitChar sep rest with
      | [] => [[c]]
      | seg :: segs => (c :: seg) :: segs

/-- The string `FileReader.readAsDataURL` resolves with:
`data:<mime>;base64,<base64 of the bytes>`. -/
def readAsDataURL (f : JsFile) : List Char :=
  "data:".data ++ f.mime ++ ";base64,".data ++ base64Encode f.bytes

/-- The `inlineData` payload of a Gemini request part. -/
structure InlineData where
  data : List Char
  mimeType : List Char

/-- A Gemini request part. -/
structure GenerativePart where
  inlineData : InlineData

/-- The encoder `fileToGenerativePart`: read the file as a data-URL, take
`result.split(',')[1]` as the base64 payload, and pair it with the file's
MIME type. -/
def fileToGenerativePart (f : JsFile) : GenerativePart :=
  { inlineData :=
      { data := (jsSplitChar ',' (readAsDataURL f)).getD 1 [],
        mimeType := f.mime } }

/-- Decoding the base64 character of any sextet value below 64 recovers it. -/
theorem decB64Char_encB64Char : ∀ n, n < 64 → decB64Char (encB64Char n) = some n := by
  decide

/-- No sextet encodes to the padding character. -/
theorem encB64Char_ne_eq_sign : ∀ n, n < 64 → encB64Char n ≠ '=' := by
  decide

/-- No base64 character is a comma, whatever the argument. -/
theorem encB64Char_ne_comma (n : Nat) : encB64Char n ≠ ',' := by
  by_cases h : n < 64
  · exact (by decide : ∀ m, m < 64 → encB64Char m ≠ ',') n h
  · unfold encB64Char
    rw [List.getD_eq_default]
    · decide
    · have hl : b64Alphabet.length = 64 := by decide
      omega

/-- The comma never occurs in a base64 encoding. -/
theorem comma_not_mem_base64Encode : ∀ bytes : List Nat, ',' ∉ base64Encode bytes := by
  intro bytes
  induction bytes using base64Encode.induct with
  | case1 => simp [base64Encode]
  | case2 a =>
    simp only [base64Encode, List.mem_cons, List.not_mem_nil, or_false]
    push_neg
    exact ⟨(encB64Char_ne_comma _).symm, (encB64Char_ne_comma _).symm, by decide, by decide⟩
  | case3 a b =>
    simp only [base64Encode, List.mem_cons, List.not_mem_nil, or_false]
    push_neg
    exact ⟨(encB64Char_ne_comma _).symm, (encB64Char_ne_comma _).symm,
      (encB64Char_ne_comma _).symm, by decide⟩
  | case4 a b c rest ih =>
    simp only [base64Encode, List.mem_cons]
    push_neg
    exact ⟨(encB64Char_ne_comma _).symm, (encB64Char_ne_comma _).symm,
      (encB64Char_ne_comma _).symm, (encB64Char_ne_comma _).symm, ih⟩

/-- Decoding a base64 encoding recovers the encoded bytes. -/
theorem base64Decode_base64Encode :
    ∀ bytes : List Nat, (∀ b ∈ bytes, b < 256) →
      base64Decode (base64Encode bytes) = bytes := by
  intro bytes
  induction bytes using base64Encode.induct with
  | case1 => intro _; simp [base64Encode, base64Decode]
  | case2 a =>
    intro h
    have ha : a < 256 := h a (by simp)
    have h1 := decB64Char_encB64Char (a / 4) (by omega)
    have h2 := decB64Char_encB64Char ((a % 4) * 16) (by omega)
    simp [base64Encode, base64Decode, h1, h2]
    omega
  | case3 a b =>
    intro h
    have ha : a < 256 := h a (by simp)
    have hb : b < 256 := h b (by simp)
    have h1 := decB64Char_encB64Char (a / 4) (by omega)
    have h2 := decB64Char_encB64Char ((a % 4) * 16 + b / 16) (by omega)
    have h3 := decB64Char_encB64Char ((b % 16) * 4) (by omega)
    have hne := encB64Char_ne_eq_sign ((b % 16) * 4) (by omega)
    simp [base64Encode, base64Decode, h1, h2, h3, hne]
    constructor <;> omega
  | case4 a b c rest ih =>
    intro h
    have ha : a < 256 := h a (by simp)
    have hb : b < 256 := h b (by simp)
    have hc : c < 256 := h c (by simp)
    have h1 := decB64Char_encB64Char (a / 4) (by omega)
    have h2 := decB64Char_encB64Char ((a % 4) * 16 + b / 16) (by omega)
    have h3 := decB64Char_encB64Char ((b % 16) * 4 + c / 64) (by omega)
    have h4 := decB64Char_encB64Char (c % 64) (by omega)
    have hne3 := encB64Char_ne_eq_sign ((b % 16) * 4 + c / 64) (by omega)
    have hne4 := encB64Char_ne_eq_sign (c % 64) (by omega)
    have ihh := ih (fun x hx => h x (by simp [hx]))
    simp [base64Encode, base64Decode, h1, h2, h3, h4, hne3, hne4, ihh]
    refine ⟨by omega, by omega, by omega⟩

/-- Splitting a separator-free text yields that text as the only segment. -/
theorem jsSplitChar_of_not_mem (sep : Char) :
    ∀ b : List Char, sep ∉ b → jsSplitChar sep b = [b] := by
  intro b
  induction b with
  | nil => intro _; rfl
  | cons c rest ih =>
    intro h
    have hc : c ≠ sep := fun he => h (by simp [he])
    have hr : sep ∉ rest := fun hm => h (by simp [hm])
    simp [jsSplitChar, hc, ih hr]

/-- Splitting at the first separator: a separator-free head becomes the
first segment. -/
theorem jsSplitChar_append (sep : Char) :
    ∀ a b : List Char, sep ∉ a →
      jsSplitChar sep (a ++ sep :: b) = a :: jsSplitChar sep b := by
  intro a
  induction a with
  | nil => intro b _; simp [jsSplitChar]
  | cons c rest ih =>
    intro b h
    have hc : c ≠ sep := fun he => h (by simp [he])
    have hr : sep ∉ rest := fun hm => h (by simp [hm])
    simp [jsSplitChar, hc, ih b hr]

/-- The data-URL the reader produces decomposes at its single comma. -/
theorem readAsDataURL_decomp (f : JsFile) :
    readAsDataURL f
      = ("data:".data ++ f.mime ++ ";base64".data) ++ ',' :: base64Encode f.bytes := by
  simp [readAsDataURL, List.append_assoc]

/-- C8: encoding a file through `fileToGenerativePart` is lossless — the
base64 payload it extracts from the data-URL decodes back to exactly the
original bytes — and the part carries the file's own MIME type.  The
hypotheses say the content is made of bytes and the MIME type contains no
comma (true of every image MIME type), which is what makes
`result.split(',')[1]` pick out the payload. -/
theorem C8_theorem (f : JsFile)
    (hbytes : ∀ b ∈ f.bytes, b < 256) (hmime : ',' ∉ f.mime) :
    base64Decode (fileToGenerativePart f).inlineData.data = f.bytes ∧
    (fileToGenerativePart f).inlineData.mimeType = f.mime := by
  have hpre : ',' ∉ ("data:".data ++ f.mime ++ ";base64".data) := by
    intro hmem
    rcases List.mem_append.mp hmem with h1 | h2
    · rcases List.mem_append.mp h1 with ha | hb
      · exact absurd ha (by decide)
      · exact hmime hb
    · exact absurd h2 (by decide)
  have hsplit := jsSplitChar_append ',' ("data:".data ++ f.mime ++ ";base64".data)
    (base64Encode f.bytes) hpre
  constructor
  · show base64Decode ((jsSplitChar ',' (readAsDataURL f)).getD 1 []) = f.bytes
    rw [readAsDataURL_decomp, hsplit,
      jsSplitChar_of_not_mem ',' _ (comma_not_mem_base64Encode f.bytes)]
    exact base64Decode_base64Encode f.bytes hbytes
  · rfl

/-- Witness for C8 on a three-byte PNG-typed file. -/
theorem C8_witness :
    (∀ b ∈ ({ bytes := [0, 255, 16], fname := ['a'], mime := "image/png".data } : JsFile).bytes,
      b < 256) ∧
    ',' ∉ ({ bytes := [0, 255, 16], fname := ['a'], mime := "image/png".data } : JsFile).mime ∧
    (base64Decode
        (fileToGenerativePart
          { bytes := [0, 255, 16], fname := ['a'], mime := "image/png".data }).inlineData.data
      = [0, 255, 16] ∧
     (fileToGenerativePart
        { bytes := [0, 255, 16], fname := ['a'], mime := "image/png".data }).inlineData.mimeType
      = "image/png".data) :=
  ⟨by decide, by decide,
    C8_theorem { bytes := [0, 255, 16], fname := ['a'], mime := "image/png".data }
      (by decide) (by decide)⟩

/-- A whitespace character (in the `trim` sense) is never a backtick. -/
theorem ws_ne_tick {c : Char} (h : isJsWs c = true) : c ≠ '`' := by
  intro he; subst he; exact absurd h (by decide)

/-- A whitespace character is never the letter `j`. -/
theorem ws_ne_j {c : Char} (h : isJsWs c = true) : c ≠ 'j' := by
  intro he; subst he; exact absurd h (by decide)

/-- A non-backtick head is never the start of an opening fence marker. -/
theorem stripFJ_cons_ne {c : Char} (l : List Char) (h : c ≠ '`') :
    stripFJ (c :: l) = c :: stripFJ l := by
  simp [stripFJ, h]

/-- A non-backtick head is never the start of a triple backtick. -/
theorem stripTicks_cons_ne {c : Char} (l : List Char) (h : c ≠ '`') :
    stripTicks (c :: l) = c :: stripTicks l := by
  simp [stripTicks, h]

/-- The fence scan passes over a backtick-free prefix unchanged. -/
theorem stripFJ_append {a : List Char} (b : List Char) (h : ∀ c ∈ a, c ≠ '`') :
    stripFJ (a ++ b) = a ++ stripFJ b := by
  induction a with
  | nil => rfl
  | cons c a' ih =>
    have hc : c ≠ '`' := h c (by simp)
    have ha' : ∀ x ∈ a', x ≠ '`' := fun x hx => h x (by simp [hx])
    simp [stripFJ_cons_ne _ hc, ih ha']

/-- The fence scan leaves a backtick-free text unchanged. -/
theorem stripFJ_eq_self {s : List Char} (h : ∀ c ∈ s, c ≠ '`') : stripFJ s = s := by
  have := stripFJ_append (a := s) [] h
  simpa [stripFJ] using this

/-- The triple-backtick scan passes over a backtick-free prefix unchanged. -/
theorem stripTicks_append {a : List Char} (b : List Char) (h : ∀ c ∈ a, c ≠ '`') :
    stripTicks (a ++ b) = a ++ stripTicks b := by
  induction a with
  | nil => rfl
  | cons c a' ih =>
    have hc : c ≠ '`' := h c (by simp)
    have ha' : ∀ x ∈ a', x ≠ '`' := fun x hx => h x (by simp [hx])
    simp [stripTicks_cons_ne _ hc, ih ha']

/-- The triple-backtick scan leaves a backtick-free text unchanged. -/
theorem stripTicks_eq_self {s : List Char} (h : ∀ c ∈ s, c ≠ '`') : stripTicks s = s := by
  have := stripTicks_append (a := s) [] h
  simpa [stripTicks] using this

/-- The fence scan deletes an opening fence marker at the head. -/
theorem stripFJ_fence (b : List Char) : stripFJ ("```json".data ++ b) = stripFJ b := rfl

/-- The triple-backtick scan deletes a triple backtick at the head. -/
theorem stripTicks_fence (b : List Char) : stripTicks ("```".data ++ b) = stripTicks b := rfl

/-- A closing triple backtick followed only by whitespace is not an opening
fence marker, so the fence scan leaves it alone. -/
theorem stripFJ_ticks_ws (b : List Char) (hb : ∀ c ∈ b, isJsWs c = true) :
    stripFJ ("```".data ++ b) = "```".data ++ b := by
  have hnb : ∀ c ∈ b, c ≠ '`' := fun c hc => ws_ne_tick (hb c hc)
  cases b with
  | nil => rfl
  | cons w b' =>
    have hwj : w ≠ 'j' := ws_ne_j (hb w (by simp))
    have hwt : w ≠ '`' := ws_ne_tick (hb w (by simp))
    have hb' : ∀ c ∈ b', c ≠ '`' := fun c hc => hnb c (by simp [hc])
    simp [stripFJ, hwj, hwt, stripFJ_eq_self hb']

/-- Dropping while a predicate holds skips a prefix on which it holds
throughout. -/
theorem dropWhile_append_all {p : Char → Bool} :
    ∀ (a b : List Char), (∀ c ∈ a, p c = true) →
      List.dropWhile p (a ++ b) = List.dropWhile p b := by
  intro a
  induction a with
  | nil => intro b _; rfl
  | cons c a' ih =>
    intro b h
    have hc : p c = true := h c (by simp)
    simp [List.dropWhile, hc, ih b (fun x hx => h x (by simp [hx]))]

/-- Dropping while a predicate holds consumes a list on which it holds
throughout. -/
theorem dropWhile_all_eq_nil {p : Char → Bool} (l : List Char)
    (h : ∀ c ∈ l, p c = true) : List.dropWhile p l = [] :=
  List.dropWhile_eq_nil_iff.mpr h

/-- When some element falsifies the predicate, dropping stops inside the
first list and the second is untouched. -/
theorem dropWhile_append_of_exists {p : Char → Bool} :
    ∀ (l b : List Char), (∃ x ∈ l, p x = false) →
      List.dropWhile p (l ++ b) = List.dropWhile p l ++ b := by
  intro l
  induction l with
  | nil => intro b h; simp at h
  | cons c l' ih =>
    intro b h
    by_cases hc : p c = true
    · have hex : ∃ x ∈ l', p x = false := by
        rcases h with ⟨x, hx, hpx⟩
        rcases List.mem_cons.mp hx with rfl | hx'
        · rw [hc] at hpx; cases hpx
        · exact ⟨x, hx', hpx⟩
      simp [List.dropWhile, hc, ih b hex]
    · have hc' : p c = false := by simpa using hc
      simp [List.dropWhile, hc']

/-- Trimming ignores whitespace-only padding appended on each side. -/
theorem jsTrim_wrap (a t b : List Char)
    (ha : ∀ c ∈ a, isJsWs c = true) (hb : ∀ c ∈ b, isJsWs c = true) :
    jsTrim (a ++ (t ++ b)) = jsTrim t := by
  unfold jsTrim
  rw [dropWhile_append_all a (t ++ b) ha]
  by_cases hall : ∀ c ∈ t, isJsWs c = true
  · rw [dropWhile_append_all t b hall, dropWhile_all_eq_nil b hb,
      dropWhile_all_eq_nil t hall]
  · have hex : ∃ x ∈ t, isJsWs x = false := by
      push_neg at hall
      rcases hall with ⟨x, hx, hpx⟩
      exact ⟨x, hx, by simpa using hpx⟩
    rw [dropWhile_append_of_exists t b hex]
    rw [List.reverse_append]
    rw [dropWhile_append_all b.reverse _ (fun c hc => hb c (List.mem_reverse.mp hc))]

/-- C6: wrapping a backtick-free payload in Markdown code fences —
an opening fence marker before, a closing triple backtick after, with
optional surrounding whitespace — does not change what the response parser
produces: the global replaces delete exactly the fence markers and `trim`
absorbs the padding, so `JSON.parse` sees the same text. -/
theorem C6_theorem (t ws1 ws4 : List Char)
    (ht : ∀ c ∈ t, c ≠ '`')
    (h1 : ∀ c ∈ ws1, isJsWs c = true) (h4 : ∀ c ∈ ws4, isJsWs c = true) :
    parsePipeline (ws1 ++ "```json".data ++ t ++ "```".data ++ ws4) = parsePipeline t := by
  have hw1 : ∀ c ∈ ws1, c ≠ '`' := fun c hc => ws_ne_tick (h1 c hc)
  have hw4 : ∀ c ∈ ws4, c ≠ '`' := fun c hc => ws_ne_tick (h4 c hc)
  have hfj : stripFJ (ws1 ++ ("```json".data ++ (t ++ ("```".data ++ ws4))))
      = ws1 ++ (t ++ ("```".data ++ ws4)) := by
    rw [stripFJ_append _ hw1, stripFJ_fence, stripFJ_append _ ht, stripFJ_ticks_ws ws4 h4]
  have hticks : stripTicks (ws1 ++ (t ++ ("```".data ++ ws4))) = ws1 ++ (t ++ ws4) := by
    rw [stripTicks_append _ hw1, stripTicks_append _ ht, stripTicks_fence,
      stripTicks_eq_self hw4]
  unfold parsePipeline stripFences
  simp only [List.append_assoc]
  rw [hfj, hticks, stripFJ_eq_self ht, stripTicks_eq_self ht,
    jsTrim_wrap ws1 t ws4 h1 h4]

/-- Witness for C6 on the payload object text with space/newline padding. -/
theorem C6_witness :
    (∀ c ∈ "\x7b\"a\": 1\x7d".data, c ≠ '`') ∧
    (∀ c ∈ [' ', '\n'], isJsWs c = true) ∧
    (∀ c ∈ ['\n', ' '], isJsWs c = true) ∧
    parsePipeline ([' ', '\n'] ++ "```json".data ++ "\x7b\"a\": 1\x7d".data
        ++ "```".data ++ ['\n', ' '])
      = parsePipeline "\x7b\"a\": 1\x7d".data :=
  ⟨by decide, by decide, by decide,
    C6_theorem "\x7b\"a\": 1\x7d".data [' ', '\n'] ['\n', ' '] (by decide) (by decide)
      (by decide)⟩

/-- C1: the claim says that BOTH a new image selection and a camera capture
clear any prior result and error.  `handleImageChange` does; `captureImage`
does not — it only stores the new file and leaves webcam mode, so a prior
`extractedData` and error survive a capture.  Here a session holding a
result and an error keeps both across a successful capture. -/
theorem C1_counterexample :
    (captureImage (some [7, 7])
        { image := none, extractedData := Json.str ['x'], error := some ['e'],
          loading := false, useWebcam := true }).extractedData = Json.str ['x'] ∧
    (captureImage (some [7, 7])
        { image := none, extractedData := Json.str ['x'], error := some ['e'],
          loading := false, useWebcam := true }).error = some ['e'] ∧
    Json.str ['x'] ≠ Json.null := by
  refine ⟨rfl, rfl, ?_⟩
  intro h
  exact Json.noConfusion h

/-- C1 (amended): a new image selection (`handleImageChange` with a file
present) stores the file and clears any prior result and error; a camera
capture (`captureImage` with a successful screenshot) stores the captured
JPEG file and leaves webcam mode but does NOT touch the prior result or
error. -/
theorem C1_theorem (s : Session) (f : JsFile) (rest : List JsFile) (bs : List Nat) :
    handleImageChange (f :: rest) s =
      { s with image := some f, extractedData := Json.null, error := none } ∧
    captureImage (some bs) s =
      { s with
        image := some { bytes := bs, fname := "webcam-capture.jpg".data,
                        mime := "image/jpeg".data },
        useWebcam := false } ∧
    (captureImage (some bs) s).extractedData = s.extractedData ∧
    (captureImage (some bs) s).error = s.error := by
  refine ⟨rfl, rfl, rfl, rfl⟩

/-- C2: while an attempt is in flight (`loading = true`) the verify button
is disabled (`disabled={!image || loading}`), so a second click triggers no
`handleVerifyClick` run: the session is unchanged and no network request is
dispatched. -/
theorem C2_theorem (outcome : RemoteOutcome) (s : Session) (h : s.loading = true) :
    clickVerify outcome s = (s, 0) := by
  simp [clickVerify, verifyButtonDisabled, h]

/-- Witness for C2 at a concrete loading session. -/
theorem C2_witness :
    ({ initialSession with loading := true } : Session).loading = true ∧
    clickVerify (RemoteOutcome.ok ['4', '2']) { initialSession with loading := true } =
      ({ initialSession with loading := true }, 0) :=
  ⟨rfl, C2_theorem (RemoteOutcome.ok ['4', '2']) { initialSession with loading := true } rfl⟩

/-- C3: the claim says valid JSON that is not an object is reported as an
extraction error.  It is not: `JSON.parse` only throws on invalid JSON, and
the `as ExtractedData` cast checks nothing at runtime, so the completion
`42` is accepted — the session ends with the number as its extracted data
and with no error message. -/
theorem C3_counterexample :
    parsePipeline ['4', '2'] = some (Json.num (intNum 42)) ∧
    isObj (Json.num (intNum 42)) = false ∧
    (handleVerifyClick (RemoteOutcome.ok ['4', '2'])
        { image := some { bytes := [1], fname := ['a'], mime := ['p'] },
          extractedData := Json.null, error := none,
          loading := false, useWebcam := false }).1.error = none ∧
    (handleVerifyClick (RemoteOutcome.ok ['4', '2'])
        { image := some { bytes := [1], fname := ['a'], mime := ['p'] },
          extractedData := Json.null, error := none,
          loading := false, useWebcam := false }).1.extractedData
      = Json.num (intNum 42) :=
  ⟨rfl, rfl, rfl, rfl⟩

/-- C3 (amended): any completion whose fence-stripped, trimmed text parses
as valid JSON — object or not — is accepted: the parsed value becomes the
extracted data and no error is set.  Only a parse failure (invalid JSON) is
reported as an extraction error, and that report is identical in user
visibility to an inference-client failure: both paths set the same generic
message. -/
theorem C3_theorem (s : Session) (f : JsFile) (text : List Char) (v : Json)
    (him : s.image = some f) (hp : parsePipeline text = some v) :
    (handleVerifyClick (RemoteOutcome.ok text) s).1.error = none ∧
    (handleVerifyClick (RemoteOutcome.ok text) s).1.extractedData = v ∧
    (∀ bad : List Char, parsePipeline bad = none →
      (handleVerifyClick (RemoteOutcome.ok bad) s).1.error =
        (handleVerifyClick RemoteOutcome.failure s).1.error) := by
  refine ⟨?_, ?_, ?_⟩
  · simp [handleVerifyClick, him, hp]
  · simp [handleVerifyClick, him, hp]
  · intro bad hbad
    simp [handleVerifyClick, him, hbad]

/-- Witness for C3 (amended) at the completion `42` from a session holding
an image. -/
theorem C3_witness :
    ({ image := some { bytes := [1], fname := ['a'], mime := ['p'] },
       extractedData := Json.null, error := none,
       loading := false, useWebcam := false } : Session).image
      = some { bytes := [1], fname := ['a'], mime := ['p'] } ∧
    parsePipeline ['4', '2'] = some (Json.num (intNum 42)) ∧
    ((handleVerifyClick (RemoteOutcome.ok ['4', '2'])
        { image := some { bytes := [1], fname := ['a'], mime := ['p'] },
          extractedData := Json.null, error := none,
          loading := false, useWebcam := false }).1.error = none ∧
     (handleVerifyClick (RemoteOutcome.ok ['4', '2'])
        { image := some { bytes := [1], fname := ['a'], mime := ['p'] },
          extractedData := Json.null, error := none,
          loading := false, useWebcam := false }).1.extractedData
       = Json.num (intNum 42) ∧
     (∀ bad : List Char, parsePipeline bad = none →
       (handleVerifyClick (RemoteOutcome.ok bad)
          { image := some { bytes := [1], fname := ['a'], mime := ['p'] },
            extractedData := Json.null, error := none,
            loading := false, useWebcam := false }).1.error =
         (handleVerifyClick RemoteOutcome.failure
            { image := some { bytes := [1], fname := ['a'], mime := ['p'] },
              extractedData := Json.null, error := none,
              loading := false, useWebcam := false }).1.error)) :=
  ⟨rfl, rfl, C3_theorem _ _ ['4', '2'] (Json.num (intNum 42)) rfl rfl⟩

/-- C4: when the (simulated) completion text is not valid JSON after fence
stripping, the attempt fails: the generic, non-empty error message is set,
the extracted data stays cleared (`null`), and the loading flag is back to
`false`. -/
theorem C4_theorem (s : Session) (f : JsFile) (text : List Char)
    (him : s.image = some f) (hp : parsePipeline text = none) :
    (handleVerifyClick (RemoteOutcome.ok text) s).1.error = some genericErrorMsg ∧
    genericErrorMsg ≠ [] ∧
    (handleVerifyClick (RemoteOutcome.ok text) s).1.extractedData = Json.null ∧
    (handleVerifyClick (RemoteOutcome.ok text) s).1.loading = false := by
  refine ⟨?_, ?_, ?_, ?_⟩ <;> simp [handleVerifyClick, him, hp, genericErrorMsg]

/-- Witness for C4 at the completion `this is not JSON`. -/
theorem C4_witness :
    ({ image := some { bytes := [1], fname := ['a'], mime := ['p'] },
       extractedData := Json.null, error := none,
       loading := false, useWebcam := false } : Session).image
      = some { bytes := [1], fname := ['a'], mime := ['p'] } ∧
    parsePipeline "this is not JSON".data = none ∧
    ((handleVerifyClick (RemoteOutcome.ok "this is not JSON".data)
        { image := some { bytes := [1], fname := ['a'], mime := ['p'] },
          extractedData := Json.null, error := none,
          loading := false, useWebcam := false }).1.error = some genericErrorMsg ∧
     genericErrorMsg ≠ [] ∧
     (handleVerifyClick (RemoteOutcome.ok "this is not JSON".data)
        { image := some { bytes := [1], fname := ['a'], mime := ['p'] },
          extractedData := Json.null, error := none,
          loading := false, useWebcam := false }).1.extractedData = Json.null ∧
     (handleVerifyClick (RemoteOutcome.ok "this is not JSON".data)
        { image := some { bytes := [1], fname := ['a'], mime := ['p'] },
          extractedData := Json.null, error := none,
          loading := false, useWebcam := false }).1.loading = false) :=
  ⟨rfl, rfl, C4_theorem _ _ "this is not JSON".data rfl rfl⟩

/-- C5: the claim says every present field is displayed exactly as
received.  A field that is present but holds the empty string is displayed
as the not-found sentinel instead, because the renderer uses
`extractedData.nombre || 'No encontrado'`.  Here `nombre` is present (the
empty string) yet renders as the sentinel, which differs from the received
value. -/
theorem C5_counterexample :
    jsGet (Json.obj [("nombre".data, Json.str []),
                     ("apellido".data, Json.str "Perez".data)]) "nombre".data
      = some (Json.str []) ∧
    renderNombre (Json.obj [("nombre".data, Json.str []),
                            ("apellido".data, Json.str "Perez".data)])
      = "No encontrado".data ∧
    "No encontrado".data ≠ ([] : List Char) := by
  refine ⟨rfl, rfl, ?_⟩
  intro h
  exact List.noConfusion h

/-- C5 (amended): when the completion parses to an object, the attempt
reports success — the object becomes the extracted data and no error is set
— and in the rendered result a field that is `null` or absent shows the
not-found sentinel, while a present field holding a non-empty string is
displayed verbatim. -/
theorem C5_theorem (s : Session) (f : JsFile) (text : List Char)
    (fs : List (List Char × Json)) (key sent cs : List Char)
    (him : s.image = some f) (hp : parsePipeline text = some (Json.obj fs)) :
    ((handleVerifyClick (RemoteOutcome.ok text) s).1.extractedData = Json.obj fs ∧
     (handleVerifyClick (RemoteOutcome.ok text) s).1.error = none) ∧
    (jsGet (Json.obj fs) key = some Json.null → renderField (Json.obj fs) key sent = sent) ∧
    (jsGet (Json.obj fs) key = none → renderField (Json.obj fs) key sent = sent) ∧
    (jsGet (Json.obj fs) key = some (Json.str cs) → cs ≠ [] →
      renderField (Json.obj fs) key sent = cs) := by
  refine ⟨⟨?_, ?_⟩, ?_, ?_, ?_⟩
  · simp [handleVerifyClick, him, hp]
  · simp [handleVerifyClick, him, hp]
  · intro h; simp [renderField, h, jsTruthy]
  · intro h; simp [renderField, h]
  · intro h hcs; simp [renderField, h, jsTruthy, hcs, jsDisplay]

/-- Witness for C5 (amended): a completion whose object has `nombre`
present, `nacionalidad` null and `apellido` absent. -/
theorem C5_witness :
    ({ image := some { bytes := [1], fname := ['a'], mime := ['p'] },
       extractedData := Json.null, error := none,
       loading := false, useWebcam := false } : Session).image
      = some { bytes := [1], fname := ['a'], mime := ['p'] } ∧
    parsePipeline "\x7b\"nombre\": \"Juan\", \"nacionalidad\": null\x7d".data
      = some (Json.obj [("nombre".data, Json.str "Juan".data),
                        ("nacionalidad".data, Json.null)]) ∧
    (((handleVerifyClick
          (RemoteOutcome.ok "\x7b\"nombre\": \"Juan\", \"nacionalidad\": null\x7d".data)
          { image := some { bytes := [1], fname := ['a'], mime := ['p'] },
            extractedData := Json.null, error := none,
            loading := false, useWebcam := false }).1.extractedData
        = Json.obj [("nombre".data, Json.str "Juan".data),
                    ("nacionalidad".data, Json.null)] ∧
      (handleVerifyClick
          (RemoteOutcome.ok "\x7b\"nombre\": \"Juan\", \"nacionalidad\": null\x7d".data)
          { image := some { bytes := [1], fname := ['a'], mime := ['p'] },
            extractedData := Json.null, error := none,
            loading := false, useWebcam := false }).1.error = none) ∧
     (jsGet (Json.obj [("nombre".data, Json.str "Juan".data),
                       ("nacionalidad".data, Json.null)]) "nombre".data
        = some Json.null →
       renderField (Json.obj [("nombre".data, Json.str "Juan".data),
                              ("nacionalidad".data, Json.null)]) "nombre".data
           "No encontrado".data = "No encontrado".data) ∧
     (jsGet (Json.obj [("nombre".data, Json.str "Juan".data),
                       ("nacionalidad".data, Json.null)]) "nombre".data = none →
       renderField (Json.obj [("nombre".data, Json.str "Juan".data),
                              ("nacionalidad".data, Json.null)]) "nombre".data
           "No encontrado".data = "No encontrado".data) ∧
     (jsGet (Json.obj [("nombre".data, Json.str "Juan".data),
                       ("nacionalidad".data, Json.null)]) "nombre".data
        = some (Json.str "Juan".data) → "Juan".data ≠ [] →
       renderField (Json.obj [("nombre".data, Json.str "Juan".data),
                              ("nacionalidad".data, Json.null)]) "nombre".data
           "No encontrado".data = "Juan".data)) :=
  ⟨rfl, rfl,
    C5_theorem _ _ "\x7b\"nombre\": \"Juan\", \"nacionalidad\": null\x7d".data
      [("nombre".data, Json.str "Juan".data), ("nacionalidad".data, Json.null)]
      "nombre".data "No encontrado".data "Juan".data rfl rfl⟩

/-- C7: calling the verify handler with no image set writes the
user-input-error message, dispatches no network request, and changes
nothing else: the prior extracted data and the loading flag are left as
they were. -/
theorem C7_theorem (outcome : RemoteOutcome) (s : Session) (him : s.image = none) :
    handleVerifyClick outcome s = ({ s with error := some noImageMsg }, 0) ∧
    noImageMsg ≠ [] ∧
    (handleVerifyClick outcome s).1.extractedData = s.extractedData ∧
    (handleVerifyClick outcome s).1.loading = s.loading := by
  refine ⟨?_, ?_, ?_, ?_⟩ <;> simp [handleVerifyClick, him, noImageMsg]

/-- Witness for C7 at the initial session. -/
theorem C7_witness :
    initialSession.image = none ∧
    (handleVerifyClick RemoteOutcome.failure initialSession =
      ({ initialSession with error := some noImageMsg }, 0) ∧
     noImageMsg ≠ [] ∧
     (handleVerifyClick RemoteOutcome.failure initialSession).1.extractedData
       = initialSession.extractedData ∧
     (handleVerifyClick RemoteOutcome.failure initialSession).1.loading
       = initialSession.loading) :=
  ⟨rfl, C7_theorem RemoteOutcome.failure initialSession rfl⟩

/-- C9: on both error paths of an attempt — a rejected inference call and a
completion that fails to parse — the loading flag is cleared by completion
and the selected image is left untouched, so a retry needs no re-selection. -/
theorem C9_theorem (s : Session) (f : JsFile) (text : List Char)
    (him : s.image = some f) (hp : parsePipeline text = none) :
    (handleVerifyClick (RemoteOutcome.ok text) s).1.loading = false ∧
    (handleVerifyClick (RemoteOutcome.ok text) s).1.image = s.image ∧
    (handleVerifyClick RemoteOutcome.failure s).1.loading = false ∧
    (handleVerifyClick RemoteOutcome.failure s).1.image = s.image := by
  refine ⟨?_, ?_, ?_, ?_⟩ <;> simp [handleVerifyClick, him, hp]

/-- Witness for C9 at a session holding an image and an unparsable
completion. -/
theorem C9_witness :
    ({ image := some { bytes := [1], fname := ['a'], mime := ['p'] },
       extractedData := Json.null, error := none,
       loading := false, useWebcam := false } : Session).image
      = some { bytes := [1], fname := ['a'], mime := ['p'] } ∧
    parsePipeline "oops".data = none ∧
    ((handleVerifyClick (RemoteOutcome.ok "oops".data)
        { image := some { bytes := [1], fname := ['a'], mime := ['p'] },
          extractedData := Json.null, error := none,
          loading := false, useWebcam := false }).1.loading = false ∧
     (handleVerifyClick (RemoteOutcome.ok "oops".data)
        { image := some { bytes := [1], fname := ['a'], mime := ['p'] },
          extractedData := Json.null, error := none,
          loading := false, useWebcam := false }).1.image
       = ({ image := some { bytes := [1], fname := ['a'], mime := ['p'] },
            extractedData := Json.null, error := none,
            loading := false, useWebcam := false } : Session).image ∧
     (handleVerifyClick RemoteOutcome.failure
        { image := some { bytes := [1], fname := ['a'], mime := ['p'] },
          extractedData := Json.null, error := none,
          loading := false, useWebcam := false }).1.loading = false ∧
     (handleVerifyClick RemoteOutcome.failure
        { image := some { bytes := [1], fname := ['a'], mime := ['p'] },
          extractedData := Json.null, error := none,
          loading := false, useWebcam := false }).1.image
       = ({ image := some { bytes := [1], fname := ['a'], mime := ['p'] },
            extractedData := Json.null, error := none,
            loading := false, useWebcam := false } : Session).image) :=
  ⟨rfl, rfl, C9_theorem _ _ "oops".data rfl rfl⟩

/-- C10: a field that is present but falsy — the empty string for a string
field, or the number 0 for the `edad` field of the nationality+age variant
— renders as the not-found sentinel, exactly as if the field were null or
absent, because the row is `{extractedData.field || sentinel}`. -/
theorem C10_theorem (d : Json) (key sent : List Char) :
    (jsGet d key = some (Json.str []) → renderField d key sent = sent) ∧
    (jsGet d key = some Json.null → renderField d key sent = sent) ∧
    (jsGet d key = none → renderField d key sent = sent) ∧
    (jsGet d "edad".data = some (Json.num (intNum 0)) →
      renderEdad d = "No encontrada".data) := by
  refine ⟨?_, ?_, ?_, ?_⟩
  · intro h; simp [renderField, h, jsTruthy]
  · intro h; simp [renderField, h, jsTruthy]
  · intro h; simp [renderField, h]
  · intro h; simp [renderEdad, renderField, h, jsTruthy, intNum]

/-- Witness for C10 on an object with an empty-string `nombre` and a zero
`edad`. -/
theorem C10_witness :
    jsGet (Json.obj [("nombre".data, Json.str []), ("edad".data, Json.num (intNum 0))])
        "nombre".data = some (Json.str []) ∧
    jsGet (Json.obj [("nombre".data, Json.str []), ("edad".data, Json.num (intNum 0))])
        "edad".data = some (Json.num (intNum 0)) ∧
    renderField (Json.obj [("nombre".data, Json.str []), ("edad".data, Json.num (intNum 0))])
        "nombre".data "No encontrado".data = "No encontrado".data ∧
    renderEdad (Json.obj [("nombre".data, Json.str []), ("edad".data, Json.num (intNum 0))])
      = "No encontrada".data :=
  ⟨rfl, rfl,
    (C10_theorem (Json.obj [("nombre".data, Json.str []), ("edad".data, Json.num (intNum 0))])
      "nombre".data "No encontrado".data).1 rfl,
    (C10_theorem (Json.obj [("nombre".data, Json.str []), ("edad".data, Json.num (intNum 0))])
      "nombre".data "No encontrado".data).2.2.2 rfl⟩

end Kyc
